import Mathlib

/-
  Verification of the getdata pipeline (src/get_data.py) against its
  natural-language specification.

  The embedding models:
  * UTC timestamps as plain calendar fields (the service layer always hands
    `process_day` a timezone-aware UTC datetime, so lexicographic comparison
    of the fields is exactly Python's datetime comparison);
  * the MRMS provider cutover in `get_mrms`;
  * the per-product `cdo.settaxis` time assignment in `get_mrms_iowa` /
    `get_mrms_aws`;
  * the reflectivity missing-value repair `setrtomiss,-1000,0` followed by
    `setmisstoc,0`, pointwise on an optional (missing-capable) rational value;
  * the surface-dewpoint derivation of `merge` (lines 217-219), pointwise on
    rational cell values;
  * the filesystem under `./data` as a list of nodes (path components relative
    to the data root, paired with a file content), with `should_skip`,
    `shutil.rmtree`, and the retry loop of `process_day` modelled over it.
    The work done by one attempt (downloads, conversions, the merge output)
    is a parameter `behavior : Nat -> AttemptResult`: attempt `i` writes some
    set of nodes and then either succeeds or raises, which is what the real
    body does at the mercy of the network and external tools.
-/

namespace GetData

/-! ## Time model -/

/-- A timezone-aware UTC timestamp, reduced to the calendar fields the code
reads.  Python compares aware datetimes by instant; for two UTC values that is
lexicographic comparison of these fields. -/
structure UTCTime where
  year : Nat
  month : Nat
  day : Nat
  hour : Nat
  minute : Nat
deriving DecidableEq, Repr

/-- Strict chronological order of two UTC timestamps (Python `<` on aware
datetimes of equal offset). -/
def UTCTime.lt (a b : UTCTime) : Bool :=
  decide (a.year < b.year) ||
    (decide (a.year = b.year) && (decide (a.month < b.month) ||
      (decide (a.month = b.month) && (decide (a.day < b.day) ||
        (decide (a.day = b.day) && (decide (a.hour < b.hour) ||
          (decide (a.hour = b.hour) && decide (a.minute < b.minute))))))))

/-- Gregorian leap-year rule. -/
def isLeap (y : Nat) : Bool :=
  (y % 4 == 0 && y % 100 != 0) || (y % 400 == 0)

/-- Days in a Gregorian month. -/
def daysInMonth (y m : Nat) : Nat :=
  if m == 2 then (if isLeap y then 29 else 28)
  else if m == 4 || m == 6 || m == 9 || m == 11 then 30
  else 31

/-- `htime.strftime("%Y-%m-%d %H:00")`: truncate to the top of the hour (this
is the start of the `pd.date_range` in the MRMS acquirers). -/
def UTCTime.floorHour (t : UTCTime) : UTCTime :=
  ⟨t.year, t.month, t.day, t.hour, 0⟩

/-- Add one hour to a timestamp (the `freq="1h"` step of the date range),
rolling over day, month and year boundaries. -/
def UTCTime.addHour (t : UTCTime) : UTCTime :=
  if t.hour + 1 ≤ 23 then ⟨t.year, t.month, t.day, t.hour + 1, t.minute⟩
  else if t.day + 1 ≤ daysInMonth t.year t.month then ⟨t.year, t.month, t.day + 1, 0, t.minute⟩
  else if t.month + 1 ≤ 12 then ⟨t.year, t.month + 1, 1, 0, t.minute⟩
  else ⟨t.year + 1, 1, 1, 0, t.minute⟩

/-- Decimal digit character. -/
def digitChar (n : Nat) : Char := Char.ofNat (48 + n % 10)

/-- Two-digit zero-padded decimal (months, days, hours are below 100). -/
def pad2 (n : Nat) : String := String.mk [digitChar (n / 10), digitChar n]

/-- Four-digit zero-padded decimal (years of interest are below 10000). -/
def pad4 (n : Nat) : String :=
  String.mk [digitChar (n / 1000), digitChar (n / 100), digitChar (n / 10), digitChar n]

/-- `date.strftime("%Y%m%d_%H")`. -/
def strftimeKey (t : UTCTime) : String :=
  pad4 t.year ++ pad2 t.month ++ pad2 t.day ++ "_" ++ pad2 t.hour

/-- The request identity key `dirname = date.strftime("%Y%m%d_%H") + lake`
(get_data.py line 264). -/
def mkDirname (t : UTCTime) (lake : String) : String :=
  strftimeKey t ++ lake

/-! ## Radar/gauge provider selection (`get_mrms`, lines 200-202) -/

inductive Provider where
  | iowa
  | aws
deriving DecidableEq, Repr

/-- `datetime(2020, 10, 15, tzinfo=timezone.utc)`. -/
def mrms_cutover : UTCTime := ⟨2020, 10, 15, 0, 0⟩

/-- `get_mrms`: `if htime < datetime(2020, 10, 15, tzinfo=timezone.utc):
get_mrms_iowa(...) else: get_mrms_aws(...)`. -/
def get_mrms_provider (htime : UTCTime) : Provider :=
  if UTCTime.lt htime mrms_cutover then Provider.iowa else Provider.aws

/-! ## Normalizer time axis (`get_mrms_iowa` lines 136-141, `get_mrms_aws`
lines 188-193) -/

/-- `DATES = pd.date_range(start=htime.strftime("%Y-%m-%d %H:00"), periods=2,
freq="1h")`: the reference hour and the following hour. -/
def mrmsDates (htime : UTCTime) : UTCTime × UTCTime :=
  (htime.floorHour, htime.floorHour.addHour)

/-- The time axis `get_mrms_iowa` assigns to a converted product via
`cdo.settaxis`, by file basename: every branch (lines 137, 139, 141) passes
`DATES[0].strftime(...)`. -/
def iowa_settaxis_time (htime : UTCTime) (fname : String) : UTCTime :=
  let DATES := mrmsDates htime
  if fname = "QPE_past" then DATES.1
  else if fname = "QPE_target" then DATES.1
  else DATES.1

/-- The time axis `get_mrms_aws` assigns via `cdo.settaxis`, by file basename:
every branch (lines 189, 191, 193) passes `DATES[0].strftime(...)`. -/
def aws_settaxis_time (htime : UTCTime) (fname : String) : UTCTime :=
  let DATES := mrmsDates htime
  if fname = "QPE_past" then DATES.1
  else if fname = "QPE_target" then DATES.1
  else DATES.1

/-! ## Reflectivity missing-value repair (lines 142 and 194) -/

/-- `cdo setrtomiss,rmin,rmax`: values inside the closed range become the
missing value; a grid value is `Option ℚ`, `none` being missing. -/
def setrtomiss (rmin rmax : ℚ) (v : Option ℚ) : Option ℚ :=
  match v with
  | none => none
  | some x => if rmin ≤ x ∧ x ≤ rmax then none else some x

/-- `cdo setmisstoc,c`: missing values become the constant `c`. -/
def setmisstoc (c : ℚ) (v : Option ℚ) : Option ℚ :=
  match v with
  | none => some c
  | some x => some x

/-- The SHSR repair chain of lines 142/194:
`cdo.setmisstoc("0", input="-setrtomiss,-1000,0 ...")`. -/
def shsr_repair (v : Option ℚ) : Option ℚ :=
  setmisstoc 0 (setrtomiss (-1000) 0 v)

/-! ## Surface dewpoint derivation (`merge`, lines 217-219) -/

/-- Line 217: `offset = xr.where(ds1['ICEC_surface'] == 0, 0.1, 0.5)`,
pointwise at one grid cell. -/
def dpt_offset (icec : ℚ) : ℚ :=
  if icec = 0 then 1/10 else 1/2

/-- Lines 218-219, pointwise at one grid cell:
`DPT_surface = xr.where(ICEC == 0, TMP_surface - offset, DPT_2m)` then
`DPT_surface = xr.where(DPT_surface > TMP_surface - offset,
TMP_surface - offset, DPT_surface)`. -/
def dpt_surface_cell (icec tmp_surface dpt_2m : ℚ) : ℚ :=
  let offset := dpt_offset icec
  let est := if icec = 0 then tmp_surface - offset else dpt_2m
  if est > tmp_surface - offset then tmp_surface - offset else est

/-- The model-branch fields of one grid cell that lines 217-220 read. -/
structure ModelCell where
  icec : ℚ
  tmp_surface : ℚ
  dpt_2m : ℚ
  pres_surface : ℚ
  landsea : ℚ
deriving DecidableEq, Repr

/-- The derived surface dewpoint at one cell (lines 217-219). -/
def cell_dpt_surface (c : ModelCell) : ℚ :=
  dpt_surface_cell c.icec c.tmp_surface c.dpt_2m

/-- Line 220: `THTE_masked = equivalent_potential_temperature(PRES_surface,
TMP_surface, DPT_surface) * landsea` at one cell.  The thermodynamic formula
itself lives in the metpy library, outside this repository, so it is a
parameter `thte`; `metpy.calc.equivalent_potential_temperature` is pointwise
in its three arguments, which is all the dataflow facts proved here need. -/
def cell_thte_masked (thte : ℚ → ℚ → ℚ → ℚ) (c : ModelCell) : ℚ :=
  thte c.pres_surface c.tmp_surface (cell_dpt_surface c) * c.landsea

/-! ## Filesystem model and orchestrator (`should_skip`, `process_day`) -/

/-- A path relative to the `./data` root, as a list of name components. -/
abbrev FSPath := List String

/-- One filesystem node: its path and, for a file, its byte content.  A
directory carries the empty content. -/
abbrev Entry := FSPath × String

/-- The tree under `./data`: the list of all nodes strictly below the root
(exactly the names `os.walk("./data")` visits through `dirs + files`). -/
abbrev FS := List Entry

/-- Python `a in b` on strings: `a` occurs contiguously inside `b`. -/
def substrB (needle hay : String) : Bool :=
  decide (needle.data <:+: hay.data)

/-- Whether a walked node's own name (its last path component, what `os.walk`
yields in `dirs + files`) contains `dirname` — the test of line 34. -/
def basenameContains (dirname : String) (e : Entry) : Bool :=
  match e.1.getLast? with
  | some n => substrB dirname n
  | none => false

/-- `should_skip` (lines 31-41): walk `./data`; if any directory or file name
contains `dirname`, raise `FileExistsError`; otherwise return `False`. -/
def should_skip (dirname : String) (fs : FS) : Except String Bool :=
  if fs.any (basenameContains dirname) then
    Except.error ("Data for " ++ dirname ++ " already exists or is being generated")
  else
    Except.ok false

/-- `shutil.rmtree` on the directory at `pre`: remove that node and every
node below it. -/
def rmtreeP (pre : FSPath) (fs : FS) : FS :=
  fs.filter (fun e => !(List.isPrefixOf pre e.1))

/-- The cleanup the `except` branch of `process_day` runs (lines 283-284):
`rmtree("./data/original/" + dirname)` then `rmtree("./data/" + dirname)`. -/
def failCleanup (dirname : String) (fs : FS) : FS :=
  rmtreeP [dirname] (rmtreeP ["original", dirname] fs)

/-- What one attempt of the `try` body does, decided by the environment
(network, remote archives, external converter): it writes some nodes and then
either completes or raises an exception somewhere along the way. -/
inductive AttemptResult where
  | success (writes : FS)
  | failure (writes : FS)

/-- Whether an attempt outcome is a failure. -/
def AttemptResult.isFail : AttemptResult → Bool
  | AttemptResult.success _ => false
  | AttemptResult.failure _ => true

/-- The retry loop of `process_day` (lines 266-286), with `attempt` the
current attempt number and `rem = max_attempts - attempt + 1` the remaining
iterations of `while attempt <= max_attempts`.  A successful body removes the
staging tree `data/original/dirname` and breaks (lines 279-280) returning
`true`; a failing body removes both the staging tree and the output directory
`data/dirname` (lines 283-284) and retries.  Falling out of the loop returns
`false` — line 286 only prints. -/
def runAttempts (dirname : String) (behavior : Nat → AttemptResult) :
    Nat → Nat → FS → FS × Bool
  | _, 0, fs => (fs, false)
  | attempt, rem + 1, fs =>
    match behavior attempt with
    | AttemptResult.success w => (rmtreeP ["original", dirname] (fs ++ w), true)
    | AttemptResult.failure w =>
        runAttempts dirname behavior (attempt + 1) rem (failCleanup dirname (fs ++ w))

/-- How a call of `process_day` terminates: `conflict` is the
`FileExistsError` raised out of `should_skip` (nothing in `process_day`
catches it); `finished ok` is a normal return, with `ok` recording whether
some attempt succeeded (`break` was reached). -/
inductive Outcome where
  | conflict
  | finished (success : Bool)
deriving DecidableEq, Repr

/-- `process_day(date, lake, max_attempts=3)` (lines 262-287): build
`dirname`, run the duplicate guard, then the retry loop starting at
`attempt = 1`.  Returns the final tree under `./data` and the outcome. -/
def process_day (date : UTCTime) (lake : String) (behavior : Nat → AttemptResult)
    (maxAttempts : Nat) (fs : FS) : FS × Outcome :=
  let dirname := mkDirname date lake
  match should_skip dirname fs with
  | Except.error _ => (fs, Outcome.conflict)
  | Except.ok _ =>
    let r := runAttempts dirname behavior 1 maxAttempts fs
    (r.1, Outcome.finished r.2)

/-- No node of the tree belongs to the identity key `dirname`: neither in the
staging subtree `data/original/dirname` nor in the output directory
`data/dirname`. -/
def noKeyTreeB (dirname : String) (fs : FS) : Bool :=
  fs.all (fun e =>
    !(List.isPrefixOf ["original", dirname] e.1) && !(List.isPrefixOf [dirname] e.1))

/-- The contents stored at a given path (a list: the model keeps duplicates
if a path was written twice). -/
def readFile (p : FSPath) (fs : FS) : List String :=
  (fs.filter (fun e => decide (e.1 = p))).map (fun e => e.2)

/-- The deterministic output path `./data/dirname/dirname_in.nc` of line 258,
relative to the data root. -/
def outPath (dirname : String) : FSPath :=
  [dirname, dirname ++ "_in.nc"]

/-! ## Helper lemmas -/

/-- After the two `rmtree` calls of the `except` branch, no node of the tree
belongs to the identity key. -/
theorem noKeyTreeB_failCleanup (d : String) (fs : FS) :
    noKeyTreeB d (failCleanup d fs) = true := by
  simp only [noKeyTreeB, failCleanup, rmtreeP, List.all_eq_true, List.mem_filter]
  rintro e ⟨⟨_, h1⟩, h2⟩
  simp only [Bool.and_eq_true]
  exact ⟨h1, h2⟩

/-- Unfolding one failing iteration of the retry loop: the state handed to the
next attempt is the fully cleaned one. -/
theorem runAttempts_failure_step (d : String) (b : Nat → AttemptResult)
    (attempt rem : Nat) (fs w : FS) (hb : b attempt = AttemptResult.failure w) :
    runAttempts d b attempt (rem + 1) fs =
      runAttempts d b (attempt + 1) rem (failCleanup d (fs ++ w)) := by
  rw [runAttempts, hb]

/-- If every attempt fails, the loop ends with no node of the tree belonging
to the identity key. -/
theorem runAttempts_fail_noKey (d : String) (b : Nat → AttemptResult)
    (hfail : ∀ i, (b i).isFail = true) :
    ∀ rem attempt fs, 1 ≤ rem →
      noKeyTreeB d (runAttempts d b attempt rem fs).1 = true := by
  intro rem
  induction rem with
  | zero => intro attempt fs h; omega
  | succ r ih =>
    intro attempt fs _
    cases hb : b attempt with
    | success w =>
      have h2 := hfail attempt
      rw [hb] at h2
      simp [AttemptResult.isFail] at h2
    | failure w =>
      rw [runAttempts_failure_step d b attempt r fs w hb]
      cases r with
      | zero => exact noKeyTreeB_failCleanup d (fs ++ w)
      | succ r2 => exact ih (attempt + 1) _ (by omega)

/-- If every attempt fails, the loop never reaches `break`: the returned flag
is `false`. -/
theorem runAttempts_fail_snd (d : String) (b : Nat → AttemptResult)
    (hfail : ∀ i, (b i).isFail = true) :
    ∀ rem attempt fs, (runAttempts d b attempt rem fs).2 = false := by
  intro rem
  induction rem with
  | zero => intro attempt fs; rfl
  | succ r ih =>
    intro attempt fs
    cases hb : b attempt with
    | success w =>
      have h2 := hfail attempt
      rw [hb] at h2
      simp [AttemptResult.isFail] at h2
    | failure w =>
      rw [runAttempts_failure_step d b attempt r fs w hb]
      exact ih _ _

/-- A key-clean tree stores nothing at the deterministic output path. -/
theorem readFile_outPath_nil (d : String) (fs : FS) (h : noKeyTreeB d fs = true) :
    readFile (outPath d) fs = [] := by
  simp only [readFile, List.map_eq_nil_iff, List.filter_eq_nil_iff]
  intro e he hp
  have h2 := (List.all_eq_true.mp h) e he
  simp only [Bool.and_eq_true, Bool.not_eq_true'] at h2
  have hpre : List.isPrefixOf [d] e.1 = true := by
    have he1 : e.1 = outPath d := of_decide_eq_true hp
    rw [he1]
    simp [outPath, List.isPrefixOf]
  rw [h2.2] at hpre
  cases hpre

/-- `process_day` when the duplicate guard fires: the `FileExistsError`
propagates and the tree is untouched. -/
theorem process_day_eq_conflict (t : UTCTime) (lake : String)
    (b : Nat → AttemptResult) (m : Nat) (fs : FS)
    (h : fs.any (basenameContains (mkDirname t lake)) = true) :
    process_day t lake b m fs = (fs, Outcome.conflict) := by
  simp [process_day, should_skip, h]

/-- `process_day` when the duplicate guard passes: the retry loop runs. -/
theorem process_day_eq_run (t : UTCTime) (lake : String)
    (b : Nat → AttemptResult) (m : Nat) (fs : FS)
    (h : fs.any (basenameContains (mkDirname t lake)) = false) :
    process_day t lake b m fs =
      ((runAttempts (mkDirname t lake) b 1 m fs).1,
        Outcome.finished (runAttempts (mkDirname t lake) b 1 m fs).2) := by
  simp [process_day, should_skip, h]

/-! ## Claim theorems -/

/-- Claim C1: on every failing attempt of `process_day(timestamp, lake_code,
max_attempts)` the orchestrator removes the request's whole staging subtree
`data/original/dirname` and any partial output directory `data/dirname`
before the next attempt begins (second conjunct), and when every attempt up
to `max_attempts` fails the final tree holds no artifact of either kind for
the identity key (first conjunct). -/
theorem process_day_failure_cleanup (date : UTCTime) (lake : String)
    (behavior : Nat → AttemptResult) (maxAttempts : Nat) (fs : FS)
    (hconf : fs.any (basenameContains (mkDirname date lake)) = false)
    (hmax : 1 ≤ maxAttempts)
    (hfail : ∀ i, (behavior i).isFail = true) :
    noKeyTreeB (mkDirname date lake) (process_day date lake behavior maxAttempts fs).1 = true ∧
    ∀ attempt rem fs2 w, behavior attempt = AttemptResult.failure w →
      runAttempts (mkDirname date lake) behavior attempt (rem + 1) fs2 =
        runAttempts (mkDirname date lake) behavior (attempt + 1) rem
          (failCleanup (mkDirname date lake) (fs2 ++ w)) ∧
      noKeyTreeB (mkDirname date lake) (failCleanup (mkDirname date lake) (fs2 ++ w)) = true := by
  constructor
  · rw [process_day_eq_run date lake behavior maxAttempts fs hconf]
    exact runAttempts_fail_noKey (mkDirname date lake) behavior hfail maxAttempts 1 fs hmax
  · intro attempt rem fs2 w hb
    exact ⟨runAttempts_failure_step (mkDirname date lake) behavior attempt rem fs2 w hb,
      noKeyTreeB_failCleanup (mkDirname date lake) (fs2 ++ w)⟩

/-- Witness for C1 at a concrete failing run: identity key `20210304_05m`,
three attempts, each writing one staging file before failing, starting from a
tree holding only the shared `original` directory. -/
theorem process_day_failure_cleanup_witness :
    noKeyTreeB "20210304_05m"
      (process_day ⟨2021, 3, 4, 5, 0⟩ "m"
        (fun _ => AttemptResult.failure
          [(["original", "20210304_05m", "mrms", "QPE_past.grib2.gz"], "")])
        3 [(["original"], "")]).1 = true :=
  (process_day_failure_cleanup ⟨2021, 3, 4, 5, 0⟩ "m"
    (fun _ => AttemptResult.failure
      [(["original", "20210304_05m", "mrms", "QPE_past.grib2.gz"], "")])
    3 [(["original"], "")] (by decide) (by decide) (fun i => rfl)).1

/-- Claim C2 is false on the code: with every attempt failing, `process_day`
catches each exception (line 281), prints, and after exhausting
`max_attempts` falls out of the loop returning `None` (line 286 only prints)
— a normal return, not a raise.  At this concrete input the call ends in
`Outcome.finished false`, which is not the raising outcome. -/
theorem process_day_exhausted_cex :
    (process_day ⟨2021, 6, 7, 8, 0⟩ "m" (fun _ => AttemptResult.failure []) 3 []).2 =
        Outcome.finished false ∧
    (process_day ⟨2021, 6, 7, 8, 0⟩ "m" (fun _ => AttemptResult.failure []) 3 []).2 ≠
        Outcome.conflict := by
  constructor
  · decide
  · decide

/-- Claim C2 as amended: when all `max_attempts` attempts fail,
`process_day` returns normally (it does not raise); the terminal failure is
observable to the caller only through the absence of the output file at the
deterministic path (the excluded service layer turns that absence into an
error response). -/
theorem process_day_exhausted_returns_normally (date : UTCTime) (lake : String)
    (behavior : Nat → AttemptResult) (maxAttempts : Nat) (fs : FS)
    (hconf : fs.any (basenameContains (mkDirname date lake)) = false)
    (hmax : 1 ≤ maxAttempts)
    (hfail : ∀ i, (behavior i).isFail = true) :
    (process_day date lake behavior maxAttempts fs).2 = Outcome.finished false ∧
    readFile (outPath (mkDirname date lake))
      (process_day date lake behavior maxAttempts fs).1 = [] := by
  rw [process_day_eq_run date lake behavior maxAttempts fs hconf]
  constructor
  · rw [runAttempts_fail_snd (mkDirname date lake) behavior hfail maxAttempts 1 fs]
  · exact readFile_outPath_nil (mkDirname date lake) _
      (runAttempts_fail_noKey (mkDirname date lake) behavior hfail maxAttempts 1 fs hmax)

/-- Witness for the amended C2 at a concrete failing run. -/
theorem process_day_exhausted_returns_normally_witness :
    (process_day ⟨2022, 1, 1, 0, 0⟩ "o" (fun _ => AttemptResult.failure []) 2 []).2 =
        Outcome.finished false ∧
    readFile (outPath (mkDirname ⟨2022, 1, 1, 0, 0⟩ "o"))
      (process_day ⟨2022, 1, 1, 0, 0⟩ "o" (fun _ => AttemptResult.failure []) 2 []).1 = [] :=
  process_day_exhausted_returns_normally ⟨2022, 1, 1, 0, 0⟩ "o"
    (fun _ => AttemptResult.failure []) 2 [] (by decide) (by decide) (fun i => rfl)

/-- Claim C3 is false on the code: both providers assign the target-QPE
product the time `DATES[0]` — the reference hour — not `timestamp + 1h`
(lines 139 and 191 both pass `DATES[0].strftime(...)` to `cdo.settaxis`).
At the concrete reference hour 2020-01-02T13Z the target-QPE axis is
2020-01-02T13Z, not the claimed 2020-01-02T14Z. -/
theorem settaxis_target_cex :
    iowa_settaxis_time ⟨2020, 1, 2, 13, 0⟩ "QPE_target" =
        (mrmsDates ⟨2020, 1, 2, 13, 0⟩).1 ∧
    iowa_settaxis_time ⟨2020, 1, 2, 13, 0⟩ "QPE_target" ≠
        (mrmsDates ⟨2020, 1, 2, 13, 0⟩).2 ∧
    aws_settaxis_time ⟨2021, 1, 2, 13, 0⟩ "QPE_target" ≠
        (mrmsDates ⟨2021, 1, 2, 13, 0⟩).2 := by
  refine ⟨by decide, by decide, by decide⟩

/-- Claim C3 as amended: for both providers, every radar/gauge product —
past-QPE, reflectivity proxy, and also target-QPE — is assigned the
single-point time axis equal to the reference timestamp truncated to the top
of the hour; the target-QPE product is not shifted by one hour. -/
theorem settaxis_all_products_reference_hour (htime : UTCTime) (fname : String) :
    iowa_settaxis_time htime fname = htime.floorHour ∧
    aws_settaxis_time htime fname = htime.floorHour := by
  constructor <;>
    simp [iowa_settaxis_time, aws_settaxis_time, mrmsDates, ite_self]

/-- Witness for the amended C3 at a concrete reference hour and product. -/
theorem settaxis_all_products_reference_hour_witness :
    iowa_settaxis_time ⟨2020, 5, 1, 7, 0⟩ "QPE_target" =
        UTCTime.floorHour ⟨2020, 5, 1, 7, 0⟩ ∧
    aws_settaxis_time ⟨2020, 5, 1, 7, 0⟩ "QPE_target" =
        UTCTime.floorHour ⟨2020, 5, 1, 7, 0⟩ :=
  settaxis_all_products_reference_hour ⟨2020, 5, 1, 7, 0⟩ "QPE_target"

/-- Claim C4 is false on the code: the repair chain is
`setrtomiss,-1000,0` then `setmisstoc,0`, which zeroes only values inside the
closed range `[-1000, 0]`.  The value `-2000` satisfies `v ≤ 0` (the floor
below which the claim requires a zero) yet passes through unchanged. -/
theorem shsr_repair_cex :
    (-2000 : ℚ) ≤ 0 ∧
    shsr_repair (some (-2000)) = some (-2000) ∧
    shsr_repair (some (-2000)) ≠ some 0 := by
  refine ⟨by norm_num, ?_, ?_⟩ <;>
    norm_num [shsr_repair, setrtomiss, setmisstoc]

/-- Claim C4 as amended: after normalization of a reflectivity-proxy product,
every grid value in the closed range `[-1000, 0]` reads as exactly 0, and a
missing value also reads as 0; values strictly below −1000 are left
unchanged by the repair. -/
theorem shsr_repair_range_to_zero (v : ℚ) (h1 : -1000 ≤ v) (h2 : v ≤ 0) :
    shsr_repair (some v) = some 0 ∧ shsr_repair none = some 0 := by
  constructor
  · simp [shsr_repair, setrtomiss, setmisstoc, h1, h2]
  · rfl

/-- Witness for the amended C4 at the concrete in-range value −5. -/
theorem shsr_repair_range_to_zero_witness :
    shsr_repair (some (-5)) = some 0 ∧ shsr_repair none = some 0 :=
  shsr_repair_range_to_zero (-5) (by norm_num) (by norm_num)

/-- Claim C5: `get_mrms` routes to the legacy Iowa State archive exactly when
the reference timestamp is strictly before 2020-10-15T00:00:00Z and to the
AWS cloud object store otherwise; in particular 2020-10-14T23:00Z routes to
the archive and 2020-10-15T00:00Z to the cloud store. -/
theorem get_mrms_provider_cutover (t : UTCTime) :
    (get_mrms_provider t = Provider.iowa ↔ UTCTime.lt t mrms_cutover = true) ∧
    (get_mrms_provider t = Provider.aws ↔ UTCTime.lt t mrms_cutover = false) ∧
    get_mrms_provider ⟨2020, 10, 14, 23, 0⟩ = Provider.iowa ∧
    get_mrms_provider ⟨2020, 10, 15, 0, 0⟩ = Provider.aws := by
  refine ⟨?_, ?_, by decide, by decide⟩ <;>
    cases h : UTCTime.lt t mrms_cutover <;> simp [get_mrms_provider, h]

/-- Witness for C5, instantiating the routing rule at 2019-01-01T00:00Z. -/
theorem get_mrms_provider_cutover_witness :
    get_mrms_provider ⟨2019, 1, 1, 0, 0⟩ = Provider.iowa :=
  (get_mrms_provider_cutover ⟨2019, 1, 1, 0, 0⟩).1.mpr (by decide)

/-- Claim C6: if at entry some directory or file anywhere under the data root
has a name containing the request's identity key, `process_day` raises the
`FileExistsError` of `should_skip` before any acquisition, conversion or
write — the call returns the tree exactly as it found it, with the conflict
outcome, and no attempt (hence no retry) ever runs. -/
theorem process_day_conflict_aborts (date : UTCTime) (lake : String)
    (behavior : Nat → AttemptResult) (maxAttempts : Nat) (fs : FS)
    (h : ∃ e ∈ fs, basenameContains (mkDirname date lake) e = true) :
    process_day date lake behavior maxAttempts fs = (fs, Outcome.conflict) :=
  process_day_eq_conflict date lake behavior maxAttempts fs
    (List.any_eq_true.mpr h)

/-- Witness for C6: a pre-existing directory named exactly like the identity
key `20210304_05h` makes the call abort with the tree untouched. -/
theorem process_day_conflict_aborts_witness :
    process_day ⟨2021, 3, 4, 5, 0⟩ "h" (fun _ => AttemptResult.failure []) 3
        [((["20210304_05h"] : FSPath), "")] =
      ([((["20210304_05h"] : FSPath), "")], Outcome.conflict) :=
  process_day_conflict_aborts ⟨2021, 3, 4, 5, 0⟩ "h" (fun _ => AttemptResult.failure []) 3
    [((["20210304_05h"] : FSPath), "")]
    ⟨((["20210304_05h"] : FSPath), ""), List.mem_singleton.mpr rfl, by decide⟩

/-- Claim C7: at every grid cell the derived surface dewpoint is
`surface_temp − 0.1` where ice cover is zero, and the 2 m dewpoint clamped to
at most `surface_temp − 0.5` where ice cover is nonzero; in both branches the
result never exceeds `surface_temp − offset` with the branch's offset; and
for the ice-free inputs 280 K / 279 K it equals 279.9 K. -/
theorem dpt_surface_cell_spec (icec tmp dpt2 : ℚ) :
    dpt_surface_cell icec tmp dpt2 =
        (if icec = 0 then tmp - 1/10 else min dpt2 (tmp - 1/2)) ∧
    dpt_surface_cell icec tmp dpt2 ≤ tmp - dpt_offset icec ∧
    dpt_surface_cell 0 280 279 = 2799/10 := by
  refine ⟨?_, ?_, by norm_num [dpt_surface_cell, dpt_offset]⟩
  · simp only [dpt_surface_cell, dpt_offset]
    by_cases hi : icec = 0
    · simp [hi]
    · simp only [hi, ite_false, min_def]
      split_ifs <;> linarith
  · simp only [dpt_surface_cell, dpt_offset]
    by_cases hi : icec = 0
    · simp [hi]
    · simp only [hi, ite_false]
      split_ifs <;> linarith

/-- Witness for C7 at an ice-covered cell: `icec = 1`, 270 K, 275 K. -/
theorem dpt_surface_cell_spec_witness :
    dpt_surface_cell 1 270 275 =
        (if (1 : ℚ) = 0 then 270 - 1/10 else min 275 (270 - 1/2)) ∧
    dpt_surface_cell 1 270 275 ≤ 270 - dpt_offset 1 ∧
    dpt_surface_cell 0 280 279 = 2799/10 :=
  dpt_surface_cell_spec 1 270 275

/-- Claim C8: once a run for an identity key has reached `Done` — the output
file sits at the deterministic path `data/dirname/dirname_in.nc` — a second
`process_day` call with the same key hits the duplicate guard (the file's
own name contains the key) and raises without touching the tree, so the
output file's contents after the second call equal its contents before it. -/
theorem process_day_done_idempotent (date : UTCTime) (lake : String)
    (behavior : Nat → AttemptResult) (maxAttempts : Nat) (fs : FS) (c : String)
    (h : ((outPath (mkDirname date lake) : FSPath), c) ∈ fs) :
    process_day date lake behavior maxAttempts fs = (fs, Outcome.conflict) ∧
    readFile (outPath (mkDirname date lake))
        (process_day date lake behavior maxAttempts fs).1 =
      readFile (outPath (mkDirname date lake)) fs := by
  have hb : basenameContains (mkDirname date lake)
      ((outPath (mkDirname date lake) : FSPath), c) = true := by
    unfold basenameContains outPath
    simp only [List.getLast?_cons_cons, List.getLast?_singleton]
    unfold substrB
    apply decide_eq_true
    rw [String.data_append]
    exact (List.prefix_append _ _).isInfix
  have h1 : process_day date lake behavior maxAttempts fs = (fs, Outcome.conflict) :=
    process_day_eq_conflict date lake behavior maxAttempts fs
      (List.any_eq_true.mpr ⟨_, h, hb⟩)
  exact ⟨h1, by rw [h1]⟩

/-- Witness for C8: a completed output file for key `20220506_07o` survives a
second call byte for byte. -/
theorem process_day_done_idempotent_witness :
    process_day ⟨2022, 5, 6, 7, 0⟩ "o" (fun _ => AttemptResult.failure []) 3
        [((["20220506_07o", "20220506_07o_in.nc"] : FSPath), "DATA")] =
      ([((["20220506_07o", "20220506_07o_in.nc"] : FSPath), "DATA")], Outcome.conflict) ∧
    readFile (outPath (mkDirname ⟨2022, 5, 6, 7, 0⟩ "o"))
        (process_day ⟨2022, 5, 6, 7, 0⟩ "o" (fun _ => AttemptResult.failure []) 3
          [((["20220506_07o", "20220506_07o_in.nc"] : FSPath), "DATA")]).1 =
      readFile (outPath (mkDirname ⟨2022, 5, 6, 7, 0⟩ "o"))
        [((["20220506_07o", "20220506_07o_in.nc"] : FSPath), "DATA")] :=
  process_day_done_idempotent ⟨2022, 5, 6, 7, 0⟩ "o" (fun _ => AttemptResult.failure []) 3
    [((["20220506_07o", "20220506_07o_in.nc"] : FSPath), "DATA")] "DATA" (by decide)

/-- Claim C9: the duplicate guard tests substring containment of the identity
key in each walked name, not equality: `should_skip` raises exactly when some
existing node's own name has the key as a contiguous substring — including a
name of a different request that merely contains this key — and returns
`False` exactly when no such name exists. -/
theorem should_skip_substring_guard (d : String) (fs : FS) :
    ((∃ msg, should_skip d fs = Except.error msg) ↔
      ∃ e ∈ fs, ∃ n, e.1.getLast? = some n ∧ d.data <:+: n.data) ∧
    (should_skip d fs = Except.ok false ↔
      ¬ ∃ e ∈ fs, ∃ n, e.1.getLast? = some n ∧ d.data <:+: n.data) := by
  have key : fs.any (basenameContains d) = true ↔
      ∃ e ∈ fs, ∃ n, e.1.getLast? = some n ∧ d.data <:+: n.data := by
    rw [List.any_eq_true]
    constructor
    · rintro ⟨e, he, hp⟩
      unfold basenameContains at hp
      cases hg : e.1.getLast? with
      | none => rw [hg] at hp; cases hp
      | some n =>
        rw [hg] at hp
        exact ⟨e, he, n, hg, of_decide_eq_true hp⟩
    · rintro ⟨e, he, n, hg, hi⟩
      refine ⟨e, he, ?_⟩
      unfold basenameContains
      rw [hg]
      exact decide_eq_true hi
  unfold should_skip
  cases hA : fs.any (basenameContains d) with
  | false =>
    have hnex : ¬ ∃ e ∈ fs, ∃ n, e.1.getLast? = some n ∧ d.data <:+: n.data :=
      fun hx => absurd (key.mpr hx) (by simp [hA])
    simp only [Bool.false_eq_true, if_false]
    constructor
    · simp [hnex]
    · simp [hnex]
  | true =>
    have hex := key.mp hA
    simp only [if_true]
    constructor
    · simp [hex]
    · simp [hex]

/-- Witness for C9: the key `20200101_00m` conflicts with the name
`20200101_00mic` of a different lake's request, and passes on an empty tree. -/
theorem should_skip_substring_guard_witness :
    should_skip "20200101_00m" ([] : FS) = Except.ok false ∧
    should_skip "20200101_00m" [((["20200101_00mic"] : FSPath), "x")] ≠
      Except.ok false :=
  ⟨(should_skip_substring_guard "20200101_00m" ([] : FS)).2.mpr (by simp),
    fun h =>
      ((should_skip_substring_guard "20200101_00m"
          [((["20200101_00mic"] : FSPath), "x")]).2.mp h)
        ⟨((["20200101_00mic"] : FSPath), "x"), by simp, "20200101_00mic", rfl, by decide⟩⟩

/-- Claim C10: the ice-free dewpoint branch never reads the 2 m dewpoint —
for two model cells identical except in `DPT_2m`, with ice cover zero, the
derived surface dewpoint and the derived (masked) surface equivalent
potential temperature coincide, for every pointwise thermodynamic formula
`thte`. -/
theorem thte_dpt2m_noninterference (thte : ℚ → ℚ → ℚ → ℚ) (c c2 : ModelCell)
    (hic : c.icec = 0) (h1 : c2.icec = c.icec) (h2 : c2.tmp_surface = c.tmp_surface)
    (h3 : c2.pres_surface = c.pres_surface) (h4 : c2.landsea = c.landsea) :
    cell_dpt_surface c2 = cell_dpt_surface c ∧
    cell_thte_masked thte c2 = cell_thte_masked thte c := by
  have hd : cell_dpt_surface c2 = cell_dpt_surface c := by
    unfold cell_dpt_surface dpt_surface_cell dpt_offset
    rw [h1, h2, hic]
    simp
  refine ⟨hd, ?_⟩
  unfold cell_thte_masked
  rw [hd, h2, h3, h4]

/-- Witness for C10: two ice-free cells whose 2 m dewpoints differ by 29 K
derive the same surface dewpoint and the same masked theta-e, here under the
pointwise formula `p + t + d`. -/
theorem thte_dpt2m_noninterference_witness :
    cell_dpt_surface ⟨0, 280, 250, 1000, 1⟩ = cell_dpt_surface ⟨0, 280, 279, 1000, 1⟩ ∧
    cell_thte_masked (fun p t d => p + t + d) ⟨0, 280, 250, 1000, 1⟩ =
      cell_thte_masked (fun p t d => p + t + d) ⟨0, 280, 279, 1000, 1⟩ :=
  thte_dpt2m_noninterference (fun p t d => p + t + d)
    ⟨0, 280, 279, 1000, 1⟩ ⟨0, 280, 250, 1000, 1⟩ rfl rfl rfl rfl rfl

end GetData
